import Mathlib

/-!
Verification of the telemetry comparison core of `src/analysis/comparison.py`
(`TelemetryComparator`).  The Python code is shallowly embedded below:
pandas/numpy arrays become `List ℚ`, `Timedelta` values become `ℚ` seconds
(`Option ℚ` where pandas `NaT` can occur), and every `raise` site becomes a
constructor of `CompError` carried through `Except`.
-/

namespace F1Replay

/-- Failure modes of the comparison pipeline.  Every explicit `raise` in the
source raises a Python `ValueError` with a distinctive message; numpy itself
raises `ValueError` for shape mismatches and empty reductions.  One
constructor per raise site / numpy failure mode, carrying the data that the
source interpolates into the message. -/
inductive CompError where
  /-- `ValueError: Driver {code} not found in this session.` -/
  | driverNotFound (code : String)
  /-- `ValueError: Lap {n} not available for one or both drivers.` -/
  | lapNotAvailable (n : Nat)
  /-- `ValueError: Could not retrieve telemetry: {e}` (wraps any exception
  from `get_car_data().add_distance()`, including the `AttributeError` hit
  when `pick_fastest` returned `None`). -/
  | telemetryUnavailable
  /-- numpy `ValueError: Number of samples must be non-negative`
  (from `np.linspace` when `int(max_dist) < 0`). -/
  | invalidNumSamples
  /-- numpy `ValueError: operands could not be broadcast together` with the
  two operand lengths. -/
  | numpyBroadcastError (n m : Nat)
  /-- numpy `ValueError: zero-size array to reduction operation maximum`
  (from `np.max` on an empty array). -/
  | zeroSizeReduction
  deriving DecidableEq

/-- One telemetry sample after `get_car_data().add_distance()`: the columns
`Distance`, `Time` (as `total_seconds()`), `Speed`, `Throttle`, `Brake`,
`nGear` used by `process`. -/
structure RawSample where
  dist : ℚ
  time : ℚ
  speed : ℚ
  throttle : ℚ
  brake : ℚ
  gear : ℚ
  deriving DecidableEq

/-- One row of `session.laps`.  `lapTime` is the `LapTime` column in seconds,
`none` modelling pandas `NaT` (no recorded lap time).  `carData` is the
sample series returned by `get_car_data().add_distance()`; `none` models that
call raising. -/
structure Lap where
  lapNumber : Nat
  lapTime : Option ℚ
  carData : Option (List RawSample)
  deriving DecidableEq

/-- The session: its lap table keyed by driver code, and the styling
collaborator `fastf1.plotting.get_driver_color` as a finite lookup
(`none` models the lookup raising for an unknown code). -/
structure Session where
  laps : List (String × Lap)
  colors : List (String × String)
  deriving DecidableEq

/-- One entry of `aligned_data`: the shared grid `dist` plus the interpolated
channels and the display color. -/
structure AlignedSeries where
  dist : List ℚ
  time : List ℚ
  speed : List ℚ
  throttle : List ℚ
  brake : List ℚ
  gear : List ℚ
  color : String
  deriving DecidableEq

/-- The dict returned by `_generate_statistics`.  `lap_time_diff` is
`Option ℚ`: `none` models the `NaN` that `(NaT - t).total_seconds()`
produces when a `LapTime` is missing. -/
structure Stats where
  top_speed_diff : ℚ
  avg_throttle_a : ℚ
  avg_throttle_b : ℚ
  lap_time_diff : Option ℚ
  deriving DecidableEq

/-- The state `process` leaves behind: `self.telemetry_data` for both
drivers, `self.delta_data`, and the returned statistics dict. -/
structure ProcResult where
  alignedA : AlignedSeries
  alignedB : AlignedSeries
  delta : List ℚ
  stats : Stats
  deriving DecidableEq

/-- `session.laps.pick_drivers(code)`: the rows of the lap table belonging to
the given driver code, in table order. -/
def pickDrivers (s : Session) (code : String) : List Lap :=
  (s.laps.filter (fun p => p.1 == code)).map Prod.snd

/-- The lap time used for ordering in `pick_fastest` (only ever read on laps
whose `lapTime` is present). -/
def lapTimeD (l : Lap) : ℚ := l.lapTime.getD 0

/-- `laps.pick_fastest()`: the lap with the smallest recorded `LapTime`
(laps without a time cannot be fastest); `none` when no lap has a recorded
time, modelling fastf1 returning `None`. -/
def pickFastest (laps : List Lap) : Option Lap :=
  (laps.filter (fun l => l.lapTime.isSome)).foldl
    (fun best l =>
      match best with
      | none => some l
      | some b => if lapTimeD l < lapTimeD b then some l else some b)
    none

/-- Python truthiness of `self.lap_number` in `if self.lap_number:`:
`None` and `0` are falsy. -/
def pyTruthy : Option Nat → Bool
  | none => false
  | some n => n != 0

/-- np.max / pandas `.max()` over a list: the greatest element of a nonempty
list, `none` on the empty list (where numpy raises and pandas yields `NaN`,
which this model does not represent — theorems below keep the relevant lists
nonempty). -/
def listMax : List ℚ → Option ℚ
  | [] => none
  | x :: xs => some (xs.foldl max x)

/-- `tel['Distance'].max()`; the default 0 is never reached on the nonempty
telemetry the theorems below consider. -/
def maxDistance (tel : List RawSample) : ℚ :=
  (listMax (tel.map RawSample.dist)).getD 0

/-- Python `int(...)` on a float: truncation toward zero. -/
def pyInt (q : ℚ) : Int :=
  if 0 ≤ q then ⌊q⌋ else -⌊-q⌋

/-- `np.linspace(a, b, num)`: `num` evenly spaced points from `a` to `b`
inclusive; a single point is `a` alone, zero points is the empty array. -/
def linspace (a b : ℚ) (num : Nat) : List ℚ :=
  if num = 0 then []
  else if num = 1 then [a]
  else (List.range num).map (fun i : Nat => a + (b - a) * (i : ℚ) / ((num : ℚ) - 1))

/-- `np.interp` at one query point, for non-decreasing sample positions:
clamped to the first value at or below the first position, piecewise-linear
in between, clamped to the last value past the last position. -/
def npInterp (x : ℚ) : List (ℚ × ℚ) → ℚ
  | [] => 0
  | [(_, y0)] => y0
  | (x0, y0) :: (x1, y1) :: rest =>
    if x ≤ x0 then y0
    else if x ≤ x1 then y0 + (y1 - y0) * (x - x0) / (x1 - x0)
    else npInterp x ((x1, y1) :: rest)

/-- The `(tel['Distance'], tel[channel])` pairs fed to `np.interp`. -/
def channelPairs (tel : List RawSample) (f : RawSample → ℚ) : List (ℚ × ℚ) :=
  tel.map (fun s => (s.dist, f s))

/-- One entry of `aligned_data`: every channel of one driver's telemetry
interpolated onto the common grid (step 4 of `process`). -/
def alignSeries (grid : List ℚ) (tel : List RawSample) (color : String) :
    AlignedSeries where
  dist := grid
  time := grid.map (fun x => npInterp x (channelPairs tel RawSample.time))
  speed := grid.map (fun x => npInterp x (channelPairs tel RawSample.speed))
  throttle := grid.map (fun x => npInterp x (channelPairs tel RawSample.throttle))
  brake := grid.map (fun x => npInterp x (channelPairs tel RawSample.brake))
  gear := grid.map (fun x => npInterp x (channelPairs tel RawSample.gear))
  color := color

/-- numpy elementwise subtraction `xs - ys` of two 1-d arrays, including
numpy's broadcasting of a length-1 operand; incompatible shapes raise. -/
def npSub (xs ys : List ℚ) : Except CompError (List ℚ) :=
  if xs.length = ys.length then .ok (List.zipWith (fun a b => a - b) xs ys)
  else if ys.length = 1 then .ok (xs.map (fun a => a - ys.headD 0))
  else if xs.length = 1 then .ok (ys.map (fun b => xs.headD 0 - b))
  else .error (.numpyBroadcastError xs.length ys.length)

/-- Step 5 of `process`:
`self.delta_data = aligned_data[d2]['time'] - aligned_data[d1]['time']`. -/
def computeDelta (a b : AlignedSeries) : Except CompError (List ℚ) :=
  npSub b.time a.time

/-- `np.max` over a 1-d array: raises on an empty array. -/
def npMax (xs : List ℚ) : Except CompError ℚ :=
  match listMax xs with
  | some m => .ok m
  | none => .error .zeroSizeReduction

/-- `np.mean` over a 1-d array.  On the empty array numpy warns and yields
`NaN`; in this model the junk value is `0/0 = 0`, but `process` has already
failed on `np.max` before any empty mean is consumed. -/
def npMean (xs : List ℚ) : ℚ := xs.sum / (xs.length : ℚ)

/-- `Timedelta` subtraction followed by `total_seconds()`:
`NaT - t = NaT` and `NaT.total_seconds()` is `NaN` (here `none`). -/
def tdSub : Option ℚ → Option ℚ → Option ℚ
  | some a, some b => some (a - b)
  | _, _ => none

/-- `_generate_statistics`: the dict built from the aligned channels and the
two selected laps.  `np.max(d1['speed'])` is evaluated first and raises on an
empty grid; the lap-time difference is computed from the original
(non-interpolated) `LapTime` values. -/
def generateStatistics (a b : AlignedSeries) (lapA lapB : Lap) :
    Except CompError Stats :=
  match npMax a.speed with
  | .error e => .error e
  | .ok m1 =>
    match npMax b.speed with
    | .error e => .error e
    | .ok m2 => .ok
        { top_speed_diff := m1 - m2
          avg_throttle_a := npMean a.throttle
          avg_throttle_b := npMean b.throttle
          lap_time_diff := tdSub lapA.lapTime lapB.lapTime }

/-- Step 3 of `process`: the common distance vector
`np.linspace(0, max_dist, num=int(max_dist))` for
`max_dist = min(tel_a['Distance'].max(), tel_b['Distance'].max())`. -/
def commonGrid (telA telB : List RawSample) : List ℚ :=
  let maxDist := min (maxDistance telA) (maxDistance telB)
  linspace 0 maxDist (pyInt maxDist).toNat

/-- Steps 3–5 of `process` plus `_generate_statistics`: build the common
grid, interpolate both telemetries onto it, subtract the time channels, and
reduce to statistics. -/
def runComparison (lapA lapB : Lap) (telA telB : List RawSample)
    (colorA colorB : String) : Except CompError ProcResult :=
  if pyInt (min (maxDistance telA) (maxDistance telB)) < 0 then
    .error .invalidNumSamples
  else
    let grid := commonGrid telA telB
    let a := alignSeries grid telA colorA
    let b := alignSeries grid telB colorB
    match computeDelta a b with
    | .error e => .error e
    | .ok delta =>
      match generateStatistics a b lapA lapB with
      | .error e => .error e
      | .ok st => .ok ⟨a, b, delta, st⟩

/-- Step 1 of `process` after the driver checks: either the rows matching the
requested lap number (first match taken via `iloc[0]`, both drivers required
to have one) or each driver's fastest lap. -/
def selectLaps (d1Laps d2Laps : List Lap) (lapNumber : Option Nat) :
    Except CompError (Option Lap × Option Lap) :=
  if pyTruthy lapNumber then
    let n := lapNumber.getD 0
    match (d1Laps.filter (fun l => l.lapNumber == n)).head?,
          (d2Laps.filter (fun l => l.lapNumber == n)).head? with
    | some a, some b => .ok (some a, some b)
    | _, _ => .error (.lapNotAvailable n)
  else .ok (pickFastest d1Laps, pickFastest d2Laps)

/-- The `get_color` helper: `fastf1.plotting.get_driver_color` with the bare
`except` substituting `"gray"`. -/
def getColor (s : Session) (code : String) : String :=
  match s.colors.lookup code with
  | some c => c
  | none => "gray"

/-- `TelemetryComparator.process`: driver checks, lap selection, telemetry
fetch, then the alignment/delta/statistics pipeline. -/
def process (s : Session) (d1c d2c : String) (lapNumber : Option Nat) :
    Except CompError ProcResult :=
  let d1Laps := pickDrivers s d1c
  let d2Laps := pickDrivers s d2c
  if d1Laps.isEmpty then .error (.driverNotFound d1c)
  else if d2Laps.isEmpty then .error (.driverNotFound d2c)
  else
    match selectLaps d1Laps d2Laps lapNumber with
    | .error e => .error e
    | .ok lapPair =>
      match lapPair.1, lapPair.2 with
      | some lapA, some lapB =>
        match lapA.carData, lapB.carData with
        | some telA, some telB =>
          runComparison lapA lapB telA telB (getColor s d1c) (getColor s d2c)
        | _, _ => .error .telemetryUnavailable
      | _, _ => .error .telemetryUnavailable

/-! ### Helper lemmas -/

/-- `npSub` on equal-length arrays is plain elementwise subtraction. -/
theorem npSub_of_length_eq (xs ys : List ℚ) (h : xs.length = ys.length) :
    npSub xs ys = .ok (List.zipWith (fun a b => a - b) xs ys) := by
  simp [npSub, h]

/-- Indexing an elementwise difference of equal-length lists. -/
theorem getD_zipWith_sub (xs : List ℚ) :
    ∀ (ys : List ℚ) (i : Nat), xs.length = ys.length →
      (List.zipWith (fun a b => a - b) xs ys).getD i 0 =
        xs.getD i 0 - ys.getD i 0 := by
  induction xs with
  | nil =>
    intro ys i h
    cases ys with
    | nil => simp
    | cons y ys => simp at h
  | cons x xs ih =>
    intro ys i h
    cases ys with
    | nil => simp at h
    | cons y ys =>
      cases i with
      | zero => simp
      | succ n => simpa using ih ys n (by simpa using h)

/-- Inversion of a successful run of the alignment/delta/statistics
pipeline: the two aligned series are both interpolations onto the common
grid, the delta is the elementwise difference of the time channels, and the
statistics come from `_generate_statistics` on the aligned pair. -/
theorem runComparison_ok_inv (lapA lapB : Lap) (telA telB : List RawSample)
    (cA cB : String) (r : ProcResult)
    (h : runComparison lapA lapB telA telB cA cB = .ok r) :
    r.alignedA = alignSeries (commonGrid telA telB) telA cA ∧
    r.alignedB = alignSeries (commonGrid telA telB) telB cB ∧
    r.delta = List.zipWith (fun tb ta => tb - ta) r.alignedB.time r.alignedA.time ∧
    generateStatistics r.alignedA r.alignedB lapA lapB = .ok r.stats := by
  simp only [runComparison] at h
  split at h
  · exact absurd h (by simp)
  · have hlen : (alignSeries (commonGrid telA telB) telB cB).time.length =
        (alignSeries (commonGrid telA telB) telA cA).time.length := by
      simp [alignSeries]
    rw [computeDelta, npSub_of_length_eq _ _ hlen] at h
    cases hst : generateStatistics (alignSeries (commonGrid telA telB) telA cA)
        (alignSeries (commonGrid telA telB) telB cB) lapA lapB with
    | error e =>
      rw [hst] at h
      exact absurd h (by simp)
    | ok st =>
      rw [hst] at h
      injection h with h'
      subst h'
      simpa using hst

/-- With strictly increasing sample positions, the first position bounds the
last one. -/
theorem chain_fst_le_getLast :
    ∀ (l : List (ℚ × ℚ)) (p : ℚ × ℚ) (xl yl : ℚ),
      List.Chain' (fun a b : ℚ × ℚ => a.1 < b.1) (p :: l) →
      (p :: l).getLast? = some (xl, yl) → p.1 ≤ xl := by
  intro l
  induction l with
  | nil =>
    intro p xl yl _ hlast
    simp only [List.getLast?_singleton, Option.some.injEq] at hlast
    subst hlast
    exact le_refl _
  | cons q t ih =>
    intro p xl yl hch hlast
    rw [List.getLast?_cons_cons] at hlast
    have hpq : p.1 < q.1 := (List.chain'_cons.1 hch).1
    exact le_trans hpq.le (ih q xl yl (List.chain'_cons.1 hch).2 hlast)

/-- `np.interp` left of (or at) the first sample position returns the first
sample value. -/
theorem npInterp_left_clamp (pts : List (ℚ × ℚ)) (x x0 y0 : ℚ)
    (hhead : pts.head? = some (x0, y0)) (hx : x ≤ x0) :
    npInterp x pts = y0 := by
  match pts with
  | [] => simp at hhead
  | [(a, b)] =>
    simp only [List.head?_cons, Option.some.injEq, Prod.mk.injEq] at hhead
    simp [npInterp, hhead.2]
  | (a, b) :: (c, d) :: rest =>
    simp only [List.head?_cons, Option.some.injEq, Prod.mk.injEq] at hhead
    obtain ⟨rfl, rfl⟩ := hhead
    simp [npInterp, if_pos hx]

/-- `np.interp` right of (or at) the last of strictly increasing sample
positions returns the last sample value. -/
theorem npInterp_right_clamp :
    ∀ (pts : List (ℚ × ℚ)) (x xl yl : ℚ),
      List.Chain' (fun a b : ℚ × ℚ => a.1 < b.1) pts →
      pts.getLast? = some (xl, yl) → xl ≤ x →
      npInterp x pts = yl := by
  intro pts
  induction pts with
  | nil => intro x xl yl _ hlast; simp at hlast
  | cons p t ih =>
    intro x xl yl hch hlast hx
    cases t with
    | nil =>
      simp only [List.getLast?_singleton, Option.some.injEq] at hlast
      obtain ⟨px, py⟩ := p
      rw [Prod.mk.injEq] at hlast
      simp [npInterp, hlast.2]
    | cons q t2 =>
      obtain ⟨px, py⟩ := p
      obtain ⟨qx, qy⟩ := q
      rw [List.getLast?_cons_cons] at hlast
      have hch1 : px < qx := (List.chain'_cons.1 hch).1
      have hch' := (List.chain'_cons.1 hch).2
      have hq_le : qx ≤ xl := chain_fst_le_getLast t2 (qx, qy) xl yl hch' hlast
      have hnot1 : ¬ x ≤ px := not_le.2 (lt_of_lt_of_le hch1 (le_trans hq_le hx))
      rw [npInterp, if_neg hnot1]
      by_cases h2 : x ≤ qx
      · have hxq : x = qx := le_antisymm h2 (le_trans hq_le hx)
        cases t2 with
        | nil =>
          simp only [List.getLast?_singleton, Option.some.injEq, Prod.mk.injEq] at hlast
          rw [if_pos h2, hxq]
          have hne : qx - px ≠ 0 := sub_ne_zero.2 (ne_of_gt hch1)
          field_simp
          linarith [hlast.2]
        | cons r t3 =>
          exfalso
          have hqr : qx < r.1 := (List.chain'_cons.1 hch').1
          rw [List.getLast?_cons_cons] at hlast
          have : r.1 ≤ xl := by
            obtain ⟨rx, ry⟩ := r
            exact chain_fst_le_getLast t3 (rx, ry) xl yl (List.chain'_cons.1 hch').2 hlast
          linarith [le_trans this hx]
      · rw [if_neg h2]
        exact ih x xl yl hch' hlast hx

/-- `np.interp` yields a value between any lower and upper bound of the
sample values: it is a convex combination of two adjacent samples or an
endpoint value. -/
theorem npInterp_bounds :
    ∀ (pts : List (ℚ × ℚ)) (x lo hi : ℚ), pts ≠ [] →
      (∀ p ∈ pts, lo ≤ p.2) → (∀ p ∈ pts, p.2 ≤ hi) →
      lo ≤ npInterp x pts ∧ npInterp x pts ≤ hi := by
  intro pts
  induction pts with
  | nil => intro x lo hi hne; exact absurd rfl hne
  | cons p t ih =>
    intro x lo hi _ hlo hhi
    cases t with
    | nil =>
      obtain ⟨px, py⟩ := p
      have h1 := hlo (px, py) (by simp)
      have h2 := hhi (px, py) (by simp)
      simpa [npInterp] using ⟨h1, h2⟩
    | cons q t2 =>
      obtain ⟨px, py⟩ := p
      obtain ⟨qx, qy⟩ := q
      rw [npInterp]
      by_cases h1 : x ≤ px
      · rw [if_pos h1]
        exact ⟨hlo (px, py) (by simp), hhi (px, py) (by simp)⟩
      · rw [if_neg h1]
        by_cases h2 : x ≤ qx
        · rw [if_pos h2]
          have hpq : px < qx := lt_of_lt_of_le (not_le.1 h1) h2
          have hd : (0 : ℚ) < qx - px := by linarith
          have hyl : lo ≤ py := hlo (px, py) (by simp)
          have hyh : py ≤ hi := hhi (px, py) (by simp)
          have hzl : lo ≤ qy := hlo (qx, qy) (by simp)
          have hzh : qy ≤ hi := hhi (qx, qy) (by simp)
          have key : py + (qy - py) * (x - px) / (qx - px) =
              (py * (qx - x) + qy * (x - px)) / (qx - px) := by
            field_simp
            ring
          rw [key]
          constructor
          · rw [le_div_iff₀ hd]
            nlinarith [sub_nonneg.2 h2, sub_nonneg.2 (not_le.1 h1).le]
          · rw [div_le_iff₀ hd]
            nlinarith [sub_nonneg.2 h2, sub_nonneg.2 (not_le.1 h1).le]
        · rw [if_neg h2]
          exact ih x lo hi (by simp)
            (fun r hr => hlo r (List.mem_cons_of_mem _ hr))
            (fun r hr => hhi r (List.mem_cons_of_mem _ hr))

/-- Every point of `np.linspace(0, M, num)` lies in `[0, M]` when `M ≥ 0`. -/
theorem linspace_mem_le (M : ℚ) (hM : 0 ≤ M) (num : Nat) :
    ∀ y ∈ linspace 0 M num, 0 ≤ y ∧ y ≤ M := by
  intro y hy
  unfold linspace at hy
  split at hy
  · simp at hy
  · split at hy
    · simp only [List.mem_singleton] at hy
      subst hy
      exact ⟨le_refl 0, hM⟩
    · rename_i h0 h1
      obtain ⟨i, hi, rfl⟩ := List.mem_map.1 hy
      have hi' : i < num := List.mem_range.1 hi
      have hnum : 2 ≤ num := by omega
      have hden : (0 : ℚ) < (num : ℚ) - 1 := by
        have : (2 : ℚ) ≤ (num : ℚ) := by exact_mod_cast hnum
        linarith
      have hic : (i : ℚ) ≤ (num : ℚ) - 1 := by
        have : (i : ℚ) + 1 ≤ (num : ℚ) := by exact_mod_cast hi'
        linarith
      have hipos : (0 : ℚ) ≤ (i : ℚ) := Nat.cast_nonneg i
      constructor
      · have hnn : (0 : ℚ) ≤ (M - 0) * (i : ℚ) / ((num : ℚ) - 1) :=
          div_nonneg (mul_nonneg (by linarith) hipos) hden.le
        linarith
      · rw [zero_add, sub_zero, div_le_iff₀ hden]
        nlinarith

/-- For `num ≥ 2`, `np.linspace(0, M, num)` contains its stop value `M`
exactly (numpy sets the final element to `stop` when the endpoint is
included). -/
theorem linspace_stop_mem (M : ℚ) (num : Nat) (h2 : 2 ≤ num) :
    M ∈ linspace 0 M num := by
  unfold linspace
  rw [if_neg (by omega), if_neg (by omega)]
  refine List.mem_map.2 ⟨num - 1, List.mem_range.2 (by omega), ?_⟩
  have hden : ((num : ℚ) - 1) ≠ 0 := by
    have : (2 : ℚ) ≤ (num : ℚ) := by exact_mod_cast h2
    linarith
  have hcast : ((num - 1 : Nat) : ℚ) = (num : ℚ) - 1 := by
    have : 1 ≤ num := by omega
    push_cast [this]
    ring
  rw [hcast, zero_add, sub_zero, mul_div_assoc, div_self hden, mul_one]

/-- `int(q) ≥ 2` forces `q ≥ 0` (the negative branch of truncation is
nonpositive). -/
theorem pyInt_two_le_nonneg (q : ℚ) (h : 2 ≤ pyInt q) : 0 ≤ q := by
  unfold pyInt at h
  split at h
  · assumption
  · exfalso
    rename_i hq
    have h1 : (0 : ℚ) ≤ -q := by linarith [not_le.1 hq]
    have h2 : (0 : ℤ) ≤ ⌊-q⌋ := Int.floor_nonneg.2 h1
    omega

/-! ### Concrete data for witnesses

Two two-sample telemetries with maximum distances 2 m and 3 m, so the common
grid is `np.linspace(0, 2, 2) = [0, 2]`, and the full pipeline result can be
computed by hand. -/

def wTelA : List RawSample := [⟨0, 0, 100, 0, 1, 2⟩, ⟨2, 1, 140, 80, 0, 3⟩]

def wTelB : List RawSample := [⟨0, 0, 110, 10, 1, 2⟩, ⟨3, 2, 150, 90, 0, 4⟩]

def wLapA : Lap := ⟨5, some 61, some wTelA⟩

def wLapB : Lap := ⟨5, some 62, some wTelB⟩

def wAlignedA : AlignedSeries :=
  ⟨[0, 2], [0, 1], [100, 140], [0, 80], [1, 0], [2, 3], "red"⟩

def wAlignedB : AlignedSeries :=
  ⟨[0, 2], [0, 4/3], [110, 410/3], [10, 190/3], [1, 1/3], [2, 10/3], "gray"⟩

def wStats : Stats := ⟨140 - 410/3, 40, 110/3, some (-1)⟩

def wRes : ProcResult := ⟨wAlignedA, wAlignedB, [0, 1/3], wStats⟩

/-- The pipeline evaluated on the concrete witness data. -/
theorem wRun_eval : runComparison wLapA wLapB wTelA wTelB "red" "gray" = .ok wRes := by
  norm_num [runComparison, commonGrid, maxDistance, listMax, pyInt, min_def, max_def,
    show (2 : Int).toNat = 2 from rfl, linspace, List.range_succ, alignSeries, channelPairs, npInterp,
    computeDelta, npSub, generateStatistics, npMax, npMean, tdSub, wTelA, wTelB,
    wLapA, wLapB, wRes, wAlignedA, wAlignedB, wStats]

/-! ### The claims -/

/-- C1: for every successful run of the resampling pipeline, the two
AlignedSeries carry the same distance grid: identical lists, hence identical
length, identical values at every index and identical endpoints. -/
theorem C1_grid_shared (lapA lapB : Lap) (telA telB : List RawSample)
    (cA cB : String) (r : ProcResult)
    (h : runComparison lapA lapB telA telB cA cB = .ok r) :
    r.alignedA.dist = r.alignedB.dist ∧
    r.alignedA.dist.length = r.alignedB.dist.length ∧
    r.alignedA.dist.head? = r.alignedB.dist.head? ∧
    r.alignedA.dist.getLast? = r.alignedB.dist.getLast? := by
  obtain ⟨hA, hB, -, -⟩ := runComparison_ok_inv lapA lapB telA telB cA cB r h
  rw [hA, hB]
  exact ⟨rfl, rfl, rfl, rfl⟩

/-- Witness for C1 on the concrete two-sample telemetries. -/
theorem C1_grid_shared_witness :
    wRes.alignedA.dist = wRes.alignedB.dist ∧
    wRes.alignedA.dist.length = wRes.alignedB.dist.length ∧
    wRes.alignedA.dist.head? = wRes.alignedB.dist.head? ∧
    wRes.alignedA.dist.getLast? = wRes.alignedB.dist.getLast? :=
  C1_grid_shared wLapA wLapB wTelA wTelB "red" "gray" wRes wRun_eval

/-- C2: the delta series is the pointwise difference `B.time − A.time` over
the shared grid, and wherever B's interpolated time exceeds A's the delta is
positive (positive means driver B is behind). -/
theorem C2_delta_sign (lapA lapB : Lap) (telA telB : List RawSample)
    (cA cB : String) (r : ProcResult)
    (h : runComparison lapA lapB telA telB cA cB = .ok r) :
    r.delta = List.zipWith (fun tb ta => tb - ta) r.alignedB.time r.alignedA.time ∧
    ∀ i : Nat, r.alignedA.time.getD i 0 < r.alignedB.time.getD i 0 →
      0 < r.delta.getD i 0 := by
  obtain ⟨hA, hB, hd, -⟩ := runComparison_ok_inv lapA lapB telA telB cA cB r h
  refine ⟨hd, fun i hi => ?_⟩
  have hlen : r.alignedB.time.length = r.alignedA.time.length := by
    rw [hA, hB]
    simp [alignSeries]
  rw [hd, getD_zipWith_sub _ _ i hlen]
  linarith

/-- Witness for C2: at grid point 2 m, B's interpolated time 4/3 exceeds A's
time 1, and the delta there is 1/3 > 0. -/
theorem C2_delta_sign_witness :
    wRes.delta = List.zipWith (fun tb ta => tb - ta) wRes.alignedB.time wRes.alignedA.time ∧
    0 < wRes.delta.getD 1 0 := by
  obtain ⟨h1, h2⟩ := C2_delta_sign wLapA wLapB wTelA wTelB "red" "gray" wRes wRun_eval
  exact ⟨h1, h2 1 (by norm_num [wRes, wAlignedA, wAlignedB])⟩

/-- C5: the statistics of a successful comparison are exactly
`max(A.speed) − max(B.speed)`, the arithmetic means of the aligned throttle
channels, and the difference of the original (non-interpolated) lap
durations. -/
theorem C5_stats_formulas (lapA lapB : Lap) (telA telB : List RawSample)
    (cA cB : String) (r : ProcResult) (mA mB tA tB : ℚ)
    (h : runComparison lapA lapB telA telB cA cB = .ok r)
    (hmA : listMax r.alignedA.speed = some mA)
    (hmB : listMax r.alignedB.speed = some mB)
    (htA : lapA.lapTime = some tA) (htB : lapB.lapTime = some tB) :
    r.stats.top_speed_diff = mA - mB ∧
    r.stats.avg_throttle_a = r.alignedA.throttle.sum / (r.alignedA.throttle.length : ℚ) ∧
    r.stats.avg_throttle_b = r.alignedB.throttle.sum / (r.alignedB.throttle.length : ℚ) ∧
    r.stats.lap_time_diff = some (tA - tB) := by
  obtain ⟨-, -, -, hst⟩ := runComparison_ok_inv lapA lapB telA telB cA cB r h
  simp only [generateStatistics, npMax, hmA, hmB] at hst
  injection hst with h'
  rw [← h']
  exact ⟨rfl, by simp [npMean], by simp [npMean], by simp [tdSub, htA, htB]⟩

/-- Witness for C5: on the concrete data the top speeds are 140 and 410/3,
the mean throttles 40 and 110/3, and the lap-time difference 61 − 62. -/
theorem C5_stats_formulas_witness :
    wRes.stats.top_speed_diff = 140 - 410/3 ∧
    wRes.stats.avg_throttle_a = wRes.alignedA.throttle.sum / (wRes.alignedA.throttle.length : ℚ) ∧
    wRes.stats.avg_throttle_b = wRes.alignedB.throttle.sum / (wRes.alignedB.throttle.length : ℚ) ∧
    wRes.stats.lap_time_diff = some (61 - 62) :=
  C5_stats_formulas wLapA wLapB wTelA wTelB "red" "gray" wRes 140 (410/3) 61 62 wRun_eval
    (by norm_num [wRes, wAlignedA, listMax, max_def])
    (by norm_num [wRes, wAlignedB, listMax, max_def])
    (by norm_num [wLapA]) (by norm_num [wLapB])

/-- C3: for any channel of any driver, interpolation at a distance at or
below the first recorded distance (respectively at or above the last)
returns the first (respectively last) recorded sample value exactly — flat
extrapolation, never linear extrapolation. -/
theorem C3_flat_extrapolation (tel : List RawSample) (f : RawSample → ℚ)
    (x : ℚ) (s0 sl : RawSample)
    (hsorted : List.Chain' (fun a b : RawSample => a.dist < b.dist) tel)
    (hhead : tel.head? = some s0) (hlast : tel.getLast? = some sl) :
    (x ≤ s0.dist → npInterp x (channelPairs tel f) = f s0) ∧
    (sl.dist ≤ x → npInterp x (channelPairs tel f) = f sl) := by
  have hch : List.Chain' (fun a b : ℚ × ℚ => a.1 < b.1) (channelPairs tel f) := by
    rw [channelPairs, List.chain'_map]
    exact hsorted
  have hh : (channelPairs tel f).head? = some (s0.dist, f s0) := by
    rw [channelPairs, List.head?_map, hhead]
    rfl
  have hl : (channelPairs tel f).getLast? = some (sl.dist, f sl) := by
    rw [channelPairs, List.getLast?_map, hlast]
    rfl
  exact ⟨fun hx => npInterp_left_clamp _ x _ _ hh hx,
         fun hx => npInterp_right_clamp _ x _ _ hch hl hx⟩

/-- Witness for C3: querying driver A's speed channel at −1 m (below the
first recorded distance 0) yields the first sample value 100, and at 5 m
(above the last recorded distance 2) yields the last sample value 140. -/
theorem C3_flat_extrapolation_witness :
    npInterp (-1) (channelPairs wTelA RawSample.speed) = 100 ∧
    npInterp 5 (channelPairs wTelA RawSample.speed) = 140 := by
  have h1 := C3_flat_extrapolation wTelA RawSample.speed (-1)
    ⟨0, 0, 100, 0, 1, 2⟩ ⟨2, 1, 140, 80, 0, 3⟩
    (by norm_num [wTelA, List.chain'_cons]) (by norm_num [wTelA]) (by norm_num [wTelA])
  have h2 := C3_flat_extrapolation wTelA RawSample.speed 5
    ⟨0, 0, 100, 0, 1, 2⟩ ⟨2, 1, 140, 80, 0, 3⟩
    (by norm_num [wTelA, List.chain'_cons]) (by norm_num [wTelA]) (by norm_num [wTelA])
  exact ⟨h1.1 (by norm_num), h2.2 (by norm_num)⟩

/-- Values of one interpolated channel stay between any bounds on the raw
channel values. -/
theorem aligned_channel_bounds (grid : List ℚ) (tel : List RawSample)
    (f : RawSample → ℚ) (lo hi : ℚ) (hne : tel ≠ [])
    (hb : ∀ s ∈ tel, lo ≤ f s ∧ f s ≤ hi) :
    ∀ v ∈ grid.map (fun x => npInterp x (channelPairs tel f)), lo ≤ v ∧ v ≤ hi := by
  intro v hv
  obtain ⟨x, -, rfl⟩ := List.mem_map.1 hv
  refine npInterp_bounds (channelPairs tel f) x lo hi ?_ ?_ ?_
  · intro hc
    rw [channelPairs] at hc
    exact hne (List.map_eq_nil_iff.mp hc)
  · intro p hp
    obtain ⟨s, hs, rfl⟩ := List.mem_map.1 hp
    exact (hb s hs).1
  · intro p hp
    obtain ⟨s, hs, rfl⟩ := List.mem_map.1 hp
    exact (hb s hs).2

/-- C10 (implicit): for every channel, every value of the aligned series
lies between any lower and upper bound of the driver's recorded values for
that channel — clamped piecewise-linear interpolation never leaves the
recorded range (e.g. aligned throttle stays within [0, 100] whenever the
raw throttle samples do). -/
theorem C10_aligned_within_range (grid : List ℚ) (tel : List RawSample)
    (c : String) (lo hi : ℚ) (hne : tel ≠ []) :
    ((∀ s ∈ tel, lo ≤ s.time ∧ s.time ≤ hi) →
      ∀ v ∈ (alignSeries grid tel c).time, lo ≤ v ∧ v ≤ hi) ∧
    ((∀ s ∈ tel, lo ≤ s.speed ∧ s.speed ≤ hi) →
      ∀ v ∈ (alignSeries grid tel c).speed, lo ≤ v ∧ v ≤ hi) ∧
    ((∀ s ∈ tel, lo ≤ s.throttle ∧ s.throttle ≤ hi) →
      ∀ v ∈ (alignSeries grid tel c).throttle, lo ≤ v ∧ v ≤ hi) ∧
    ((∀ s ∈ tel, lo ≤ s.brake ∧ s.brake ≤ hi) →
      ∀ v ∈ (alignSeries grid tel c).brake, lo ≤ v ∧ v ≤ hi) ∧
    ((∀ s ∈ tel, lo ≤ s.gear ∧ s.gear ≤ hi) →
      ∀ v ∈ (alignSeries grid tel c).gear, lo ≤ v ∧ v ≤ hi) :=
  ⟨fun hb => aligned_channel_bounds grid tel RawSample.time lo hi hne hb,
   fun hb => aligned_channel_bounds grid tel RawSample.speed lo hi hne hb,
   fun hb => aligned_channel_bounds grid tel RawSample.throttle lo hi hne hb,
   fun hb => aligned_channel_bounds grid tel RawSample.brake lo hi hne hb,
   fun hb => aligned_channel_bounds grid tel RawSample.gear lo hi hne hb⟩

/-- Witness for C10: on a 3-point grid over driver A's telemetry, the
mid-grid aligned throttle value (40, interpolated) stays within the raw
throttle range [0, 100]. -/
theorem C10_aligned_within_range_witness :
    0 ≤ (alignSeries [0, 1, 2] wTelA "red").throttle.getD 1 0 ∧
    (alignSeries [0, 1, 2] wTelA "red").throttle.getD 1 0 ≤ 100 :=
  (C10_aligned_within_range [0, 1, 2] wTelA "red" 0 100
      (by simp [wTelA])).2.2.1
    (by norm_num [wTelA, List.forall_mem_cons]) _
    (by norm_num [alignSeries, channelPairs, npInterp, wTelA])

/-! ### C4: grid maximum -/

/-- A valid two-sample series (non-decreasing distances, max distance 3/2,
so `max_dist = 3/2 ≥ 1`). -/
def c4Tel : List RawSample := [⟨0, 0, 10, 50, 0, 3⟩, ⟨3/2, 1, 12, 55, 0, 3⟩]

def c4Lap : Lap := ⟨1, some 50, some c4Tel⟩

/-- C4 counterexample: with both maximum distances equal to 3/2 the pipeline
succeeds, but `np.linspace(0, 3/2, num=int(3/2)) = np.linspace(0, 3/2, 1)`
is the single point 0 — the grid's maximum value is 0, not
`min(max_distance(A), max_distance(B)) = 3/2`. -/
theorem C4_grid_max_cex :
    min (maxDistance c4Tel) (maxDistance c4Tel) = 3/2 ∧
    (runComparison c4Lap c4Lap c4Tel c4Tel "g" "g").toOption.map
      (fun r => r.alignedA.dist) = some [0] ∧
    listMax [0] = some 0 ∧ (0 : ℚ) ≠ 3/2 := by
  refine ⟨by norm_num [maxDistance, listMax, c4Tel, max_def], ?_, by norm_num [listMax], by norm_num⟩
  norm_num [runComparison, commonGrid, maxDistance, listMax, pyInt, min_def, max_def,
    show (1 : Int).toNat = 1 from rfl, linspace, alignSeries, channelPairs, npInterp,
    computeDelta, npSub, generateStatistics, npMax, npMean, tdSub, c4Tel, c4Lap]
  exact ⟨_, rfl, rfl⟩

/-- C4 amended: whenever `int(min(max_distance(A), max_distance(B))) ≥ 2`
(so the grid has at least two points) the grid attains
`min(max_distance(A), max_distance(B))` exactly, and in every successful run
no grid point exceeds either driver's recorded maximum distance. -/
theorem C4_grid_max_amended (lapA lapB : Lap) (telA telB : List RawSample)
    (cA cB : String) (r : ProcResult)
    (h : runComparison lapA lapB telA telB cA cB = .ok r)
    (h2 : 2 ≤ pyInt (min (maxDistance telA) (maxDistance telB))) :
    min (maxDistance telA) (maxDistance telB) ∈ r.alignedA.dist ∧
    ∀ y ∈ r.alignedA.dist, y ≤ maxDistance telA ∧ y ≤ maxDistance telB := by
  obtain ⟨hA, -, -, -⟩ := runComparison_ok_inv lapA lapB telA telB cA cB r h
  have hM0 : 0 ≤ min (maxDistance telA) (maxDistance telB) :=
    pyInt_two_le_nonneg _ h2
  have htn : 2 ≤ (pyInt (min (maxDistance telA) (maxDistance telB))).toNat := by omega
  have hdist : r.alignedA.dist =
      linspace 0 (min (maxDistance telA) (maxDistance telB))
        (pyInt (min (maxDistance telA) (maxDistance telB))).toNat := by
    rw [hA]
    rfl
  constructor
  · rw [hdist]
    exact linspace_stop_mem _ _ htn
  · intro y hy
    rw [hdist] at hy
    have hb := linspace_mem_le _ hM0 _ y hy
    exact ⟨le_trans hb.2 (min_le_left _ _), le_trans hb.2 (min_le_right _ _)⟩

/-- Witness for the amended C4: on the concrete data the grid reaches
`min(2, 3) = 2` exactly, and 2 exceeds neither recorded maximum. -/
theorem C4_grid_max_amended_witness :
    (2 : ℚ) ∈ wRes.alignedA.dist ∧
    (2 : ℚ) ≤ maxDistance wTelA ∧ (2 : ℚ) ≤ maxDistance wTelB := by
  have hm : min (maxDistance wTelA) (maxDistance wTelB) = 2 := by
    norm_num [maxDistance, listMax, wTelA, wTelB, max_def, min_def]
  have h := C4_grid_max_amended wLapA wLapB wTelA wTelB "red" "gray" wRes wRun_eval
    (by rw [hm]; norm_num [pyInt])
  exact ⟨hm ▸ h.1, h.2 2 (by norm_num [wRes, wAlignedA])⟩

/-! ### C6: the delta computation performs no alignment check -/

def c6A : AlignedSeries := ⟨[0], [5], [9], [0], [0], [1], "r"⟩

def c6B : AlignedSeries := ⟨[0, 1, 2], [1, 2, 3], [9, 9, 9], [0, 0, 0], [0, 0, 0], [1, 1, 1], "b"⟩

/-- C6 counterexample: two AlignedSeries whose grids (and time arrays) have
lengths 1 and 3; the delta computation does not fail at all — numpy silently
broadcasts the length-1 operand. -/
theorem C6_no_alignment_check_cex :
    c6A.dist.length ≠ c6B.dist.length ∧
    c6A.time.length ≠ c6B.time.length ∧
    computeDelta c6A c6B = .ok [-4, -3, -2] := by
  refine ⟨by norm_num [c6A, c6B], by norm_num [c6A, c6B], ?_⟩
  norm_num [computeDelta, npSub, c6A, c6B]

/-- C6 amended: the delta computation performs no precondition check and no
alignment-mismatch error exists; the subtraction succeeds exactly when the
two time arrays have equal length or one of them has length 1 (numpy
broadcasting), and otherwise fails with numpy's generic broadcast error. -/
theorem C6_delta_succeeds_iff (a b : AlignedSeries) :
    (computeDelta a b).isOk = true ↔
      (b.time.length = a.time.length ∨ a.time.length = 1 ∨ b.time.length = 1) := by
  rw [computeDelta, npSub]
  by_cases h1 : b.time.length = a.time.length
  · rw [if_pos h1]
    simp [h1, Except.isOk, Except.toBool]
  · rw [if_neg h1]
    by_cases h2 : a.time.length = 1
    · rw [if_pos h2]
      simp [h1, h2, Except.isOk, Except.toBool]
    · rw [if_neg h2]
      by_cases h3 : b.time.length = 1
      · rw [if_pos h3]
        simp [h1, h2, h3, Except.isOk, Except.toBool]
      · rw [if_neg h3]
        simp [h1, h2, h3, Except.isOk, Except.toBool]

/-! ### C7: no input validation in the Resampler -/

/-- A single-sample telemetry series (fewer than 2 samples). -/
def c7Tel : List RawSample := [⟨2, 1, 12, 55, 0, 3⟩]

/-- C7 counterexample: a RawSeries with a single sample is accepted — the
whole pipeline succeeds (np.interp with one sample point returns that
sample's value everywhere), with no InsufficientDataError anywhere. -/
theorem C7_single_sample_cex :
    c7Tel.length < 2 ∧
    (runComparison wLapA wLapB c7Tel wTelA "g" "g").isOk = true := by
  refine ⟨by norm_num [c7Tel], ?_⟩
  norm_num [runComparison, commonGrid, maxDistance, listMax, pyInt, min_def, max_def,
    show (2 : Int).toNat = 2 from rfl, linspace, List.range_succ, alignSeries, channelPairs,
    npInterp, computeDelta, npSub, generateStatistics, npMax, npMean, tdSub, c7Tel, wTelA,
    wLapA, wLapB, Except.isOk, Except.toBool]

/-- C7 amended: the code performs no sample-count or minimum-distance
validation.  When `min(max_distance(A), max_distance(B)) < 1` the common
grid is silently empty (`num = int(max_dist) = 0`), and the run fails only
later, in the statistics step, with numpy's zero-size reduction error from
`np.max` — not with any insufficient-data error at the Resampler boundary. -/
theorem C7_short_lap_amended (lapA lapB : Lap) (telA telB : List RawSample)
    (cA cB : String)
    (h0 : 0 ≤ min (maxDistance telA) (maxDistance telB))
    (h1 : min (maxDistance telA) (maxDistance telB) < 1) :
    commonGrid telA telB = [] ∧
    runComparison lapA lapB telA telB cA cB = .error .zeroSizeReduction := by
  have hfl : pyInt (min (maxDistance telA) (maxDistance telB)) = 0 := by
    unfold pyInt
    rw [if_pos h0]
    exact Int.floor_eq_zero_iff.2 ⟨h0, h1⟩
  have hgrid : commonGrid telA telB = [] := by
    simp [commonGrid, hfl, linspace]
  refine ⟨hgrid, ?_⟩
  simp only [runComparison]
  rw [if_neg (by rw [hfl]; norm_num)]
  simp [hgrid, alignSeries, computeDelta, npSub, generateStatistics, npMax, listMax]

/-- A valid two-sample series whose maximum distance is 0.5 m. -/
def c7Short : List RawSample := [⟨0, 0, 10, 50, 0, 3⟩, ⟨1/2, 1, 12, 55, 0, 3⟩]

/-- Witness for the amended C7: the spec's short-lap scenario (max distance
0.5 m) yields an empty grid and the numpy zero-size reduction error. -/
theorem C7_short_lap_amended_witness :
    commonGrid c7Short c7Short = [] ∧
    runComparison c4Lap c4Lap c7Short c7Short "g" "g" = .error .zeroSizeReduction :=
  C7_short_lap_amended c4Lap c4Lap c7Short c7Short "g" "g"
    (by norm_num [maxDistance, listMax, c7Short, max_def])
    (by norm_num [maxDistance, listMax, c7Short, max_def])

/-! ### C8: missing lap time yields NaN statistics, not an error -/

/-- A lap with telemetry but no recorded lap time (`LapTime` is NaT). -/
def c8LapN : Lap := ⟨5, none, some wTelA⟩

/-- C8 counterexample: with driver A's lap lacking a recorded duration, the
statistics step succeeds and returns `lap_time_diff = NaN` (modelled as
`none`) instead of failing with a missing-lap-time error. -/
theorem C8_missing_laptime_cex :
    (generateStatistics wAlignedA wAlignedB c8LapN wLapB).isOk = true ∧
    (generateStatistics wAlignedA wAlignedB c8LapN wLapB).toOption.map
      Stats.lap_time_diff = some none := by
  constructor <;>
  norm_num [generateStatistics, npMax, listMax, npMean, tdSub, wAlignedA, wAlignedB,
    c8LapN, wLapB, max_def, Except.isOk, Except.toBool, Except.toOption]

/-- C8 amended: whenever either selected lap lacks a recorded duration and
the statistics step succeeds, the returned `lap_time_diff` is the NaN value
(`none`); no missing-lap-time error exists in the code. -/
theorem C8_missing_laptime_nan (a b : AlignedSeries) (lapA lapB : Lap) (st : Stats)
    (hA : lapA.lapTime = none ∨ lapB.lapTime = none)
    (h : generateStatistics a b lapA lapB = .ok st) :
    st.lap_time_diff = none := by
  simp only [generateStatistics] at h
  cases h1 : npMax a.speed with
  | error e =>
    rw [h1] at h
    exact absurd h (by simp)
  | ok m1 =>
    rw [h1] at h
    cases h2 : npMax b.speed with
    | error e =>
      rw [h2] at h
      exact absurd h (by simp)
    | ok m2 =>
      rw [h2] at h
      injection h with h'
      rw [← h']
      rcases hA with hA | hA
      · simp [tdSub, hA]
      · rw [hA]
        cases lapA.lapTime <;> simp [tdSub]

/-- The statistics record produced for the concrete missing-lap-time data. -/
def c8Stats : Stats := ⟨140 - 410/3, 40, 110/3, none⟩

/-- Witness for the amended C8. -/
theorem C8_missing_laptime_nan_witness : c8Stats.lap_time_diff = none :=
  C8_missing_laptime_nan wAlignedA wAlignedB c8LapN wLapB c8Stats
    (Or.inl rfl)
    (by norm_num [generateStatistics, npMax, listMax, npMean, tdSub, wAlignedA, wAlignedB,
      c8LapN, wLapB, c8Stats, max_def])

/-! ### C9: driver and lap selection failures -/

/-- C9: `process` fails with the driver-not-found error whenever either
driver code has zero laps in the session, and with the lap-not-available
error whenever a caller-specified (positive) lap number is missing for
either driver. -/
theorem C9_selection_errors (s : Session) (d1c d2c : String) (n : Nat) (hn : n ≠ 0) :
    (pickDrivers s d1c = [] →
      ∀ ln, process s d1c d2c ln = .error (.driverNotFound d1c)) ∧
    (pickDrivers s d1c ≠ [] → pickDrivers s d2c = [] →
      ∀ ln, process s d1c d2c ln = .error (.driverNotFound d2c)) ∧
    (pickDrivers s d1c ≠ [] → pickDrivers s d2c ≠ [] →
      ((pickDrivers s d1c).filter (fun l => l.lapNumber == n) = [] ∨
       (pickDrivers s d2c).filter (fun l => l.lapNumber == n) = []) →
      process s d1c d2c (some n) = .error (.lapNotAvailable n)) := by
  refine ⟨?_, ?_, ?_⟩
  · intro h ln
    simp [process, h]
  · intro h1 h2 ln
    simp [process, h1, h2]
  · intro h1 h2 hor
    have hsel : selectLaps (pickDrivers s d1c) (pickDrivers s d2c) (some n) =
        .error (.lapNotAvailable n) := by
      rcases hor with h | h
      · simp [selectLaps, pyTruthy, hn, h]
      · cases hh : ((pickDrivers s d1c).filter (fun l => l.lapNumber == n)).head? with
        | none => simp [selectLaps, pyTruthy, hn, hh]
        | some a => simp [selectLaps, pyTruthy, hn, hh, h]
    simp [process, h1, h2, hsel]

/-- A session in which only driver HAM has laps. -/
def c9Session : Session := ⟨[("HAM", ⟨1, some 90, some wTelA⟩)], []⟩

/-- Witness for C9: comparing the absent code VER against HAM fails with the
driver-not-found error for VER. -/
theorem C9_selection_errors_witness :
    process c9Session "VER" "HAM" none = .error (.driverNotFound "VER") :=
  (C9_selection_errors c9Session "VER" "HAM" 1 (by norm_num)).1
    (by simp [pickDrivers, c9Session]) none

end F1Replay
